import Mathlib

/-!
Verification of the metrics computation pipeline of the recommender-dashboard
validation scripts (`src/validate_customer_profiling.py` and
`src/validate_metrics.py`).

Each database query is modelled by its outcome: an `Except String α` value
stands for one `cursor.execute` + fetch, where `ok` carries the fetched rows
and `error` the message of a raised exception.  Python's true division `/`
raises `ZeroDivisionError` on a zero divisor, modelled by `pyDiv`.  All
numeric arithmetic of the scripts is over Python ints and floats; it is
embedded over `ℚ` (exact).  The connection / query / close sequence each
script performs is modelled as a list of `DBEvent`s.
-/

namespace RecommenderDashboard

/-- Python true division `a / b`: raises `ZeroDivisionError` when `b = 0`,
otherwise yields the exact quotient. -/
def pyDiv (a b : ℚ) : Except String ℚ :=
  if b = 0 then Except.error "ZeroDivisionError" else Except.ok (a / b)

/-- Row fetched by the customer-metrics query of
`validate_customer_profiling.py` (lines 32-42): `COUNT(DISTINCT o.id)`,
`COUNT(DISTINCT o.unified_customer_id)`, `COALESCE(SUM(o.total_price), 0)`,
`COALESCE(AVG(o.total_price), 0)` over the 30-day window. -/
structure CustomerMetricsRow where
  total_orders : Nat
  total_customers : Nat
  total_revenue : ℚ
  avg_order_value : ℚ
deriving DecidableEq

/-- `validate_customer_profiling.py` line 52:
`avg_lifetime_value = result[2] / result[1] if result[1] > 0 else 0`. -/
def avg_lifetime_value (total_revenue : ℚ) (total_customers : Nat) : ℚ :=
  if 0 < total_customers then total_revenue / (total_customers : ℚ) else 0

/-- The dict returned by `validate_customer_profiling` (lines 62-67). -/
structure ProfilingMetrics where
  total_customers : Nat
  total_revenue : ℚ
  avg_order_value : ℚ
  avg_lifetime_value : ℚ
deriving DecidableEq

/-- `validate_customer_profiling` (`validate_customer_profiling.py` lines
23-67), as a function of its query's outcome.  The function has no
try/except of its own: a query error propagates to the caller.  Line 56
prints `result[0] / result[1]` with no zero-guard, so that division can
raise; the pair carries the returned dict together with the printed
orders-per-customer value. -/
def validate_customer_profiling (q : Except String CustomerMetricsRow) :
    Except String (ProfilingMetrics × ℚ) :=
  match q with
  | Except.error e => Except.error e
  | Except.ok r =>
      match pyDiv (r.total_orders : ℚ) (r.total_customers : ℚ) with
      | Except.error e => Except.error e
      | Except.ok orders_per_customer =>
          Except.ok
            ({ total_customers := r.total_customers,
               total_revenue := r.total_revenue,
               avg_order_value := r.avg_order_value,
               avg_lifetime_value :=
                 avg_lifetime_value r.total_revenue r.total_customers },
             orders_per_customer)

/-- Row of the geographic-distribution query (`validate_customer_profiling.py`
lines 78-91): city, `COUNT(DISTINCT o.unified_customer_id)`, `COUNT(*)`,
`COALESCE(SUM(o.total_price), 0)`, top 10 by descending customer count. -/
structure CityRow where
  city : String
  customer_count : Nat
  orders : Nat
  revenue : ℚ
deriving DecidableEq

/-- `validate_customer_profiling.py` line 96:
`total_customers = sum(row[1] for row in results)` over the returned
top-10 set. -/
def topTotalCustomers (rows : List CityRow) : Nat :=
  (rows.map (fun r => r.customer_count)).sum

/-- The per-row percentage loop of `validate_customer_profiling.py`
lines 99-102: for each row in order, `percentage = (customers / total) * 100`;
the first zero divisor raises. -/
def cityPercentagesAux (total : Nat) : List CityRow → Except String (List ℚ)
  | [] => Except.ok []
  | r :: rest =>
      match pyDiv (r.customer_count : ℚ) (total : ℚ) with
      | Except.error e => Except.error e
      | Except.ok p =>
          match cityPercentagesAux total rest with
          | Except.error e => Except.error e
          | Except.ok ps => Except.ok (p * 100 :: ps)

/-- The percentages printed for a top-10 result set, divisor taken over that
same set (`validate_customer_profiling.py` lines 96-102). -/
def cityPercentages (rows : List CityRow) : Except String (List ℚ) :=
  cityPercentagesAux (topTotalCustomers rows) rows

/-- `validate_geographic_distribution` (`validate_customer_profiling.py`
lines 69-114), as a function of its query's outcome: no try/except, the
percentage loop runs over the fetched rows, and the raw `results` list is
returned. -/
def validate_geographic_distribution (q : Except String (List CityRow)) :
    Except String (List CityRow) :=
  match q with
  | Except.error e => Except.error e
  | Except.ok rows =>
      match cityPercentages rows with
      | Except.error e => Except.error e
      | Except.ok _ => Except.ok rows

/-- `compare_with_frontend` (`validate_customer_profiling.py` lines 116-166):
runs `validate_customer_profiling` first, then — only if that one did not
raise — `validate_geographic_distribution`, then its own percentage loop over
`real_cities[:5]` with the divisor summed over the full list (lines 143-148).
Any raised error propagates. -/
def compare_with_frontend (q1 : Except String CustomerMetricsRow)
    (q2 : Except String (List CityRow)) :
    Except String ((ProfilingMetrics × ℚ) × List CityRow) :=
  match validate_customer_profiling q1 with
  | Except.error e => Except.error e
  | Except.ok m =>
      match validate_geographic_distribution q2 with
      | Except.error e => Except.error e
      | Except.ok cities =>
          match cityPercentagesAux (topTotalCustomers cities) (cities.take 5) with
          | Except.error e => Except.error e
          | Except.ok _ => Except.ok (m, cities)

/-- `main` of `validate_customer_profiling.py` (lines 168-200): the whole run
— including a raising `psycopg2.connect` when the database is unreachable —
sits inside one `try/except` that prints a diagnostic and falls through, and
the `if __name__` block calls `main()` with no `sys.exit`, so the process
exit status is 0 on every path. -/
def profiling_exit_code (connOk : Bool) (q1 : Except String CustomerMetricsRow)
    (q2 : Except String (List CityRow)) : Nat :=
  if connOk then
    match compare_with_frontend q1 q2 with
    | Except.ok _ => 0
    | Except.error _ => 0
  else 0

/-- One observable database action of a script run. `openConn` is a
successfully established connection. -/
inductive DBEvent where
  | openConn : DBEvent
  | query : String → DBEvent
  | closeConn : DBEvent
deriving DecidableEq

/-- Whether an event is a successful connection open. -/
def isOpenEvent : DBEvent → Bool
  | DBEvent.openConn => true
  | _ => false

/-- Whether an event is a connection close. -/
def isCloseEvent : DBEvent → Bool
  | DBEvent.closeConn => true
  | _ => false

/-- Number of connections opened in a trace. -/
def countOpens (t : List DBEvent) : Nat := (t.filter isOpenEvent).length

/-- Number of connections closed in a trace. -/
def countCloses (t : List DBEvent) : Nat := (t.filter isCloseEvent).length

/-- Whether an `Except` computation succeeded. -/
def exOk {ε α : Type} : Except ε α → Bool
  | Except.ok _ => true
  | Except.error _ => false

/-- Database actions of `validate_customer_profiling` (lines 28-60): it opens
its own connection (line 28), runs its query, and reaches
`cursor.close(); conn.close()` (lines 59-60) only when neither the query nor
the unguarded line-56 division raised. -/
def profiling_customer_events (q : Except String CustomerMetricsRow) :
    List DBEvent :=
  match validate_customer_profiling q with
  | Except.ok _ =>
      [DBEvent.openConn, DBEvent.query "customer_metrics", DBEvent.closeConn]
  | Except.error _ => [DBEvent.openConn, DBEvent.query "customer_metrics"]

/-- Database actions of `validate_geographic_distribution` (lines 74-112):
it opens a second, separate connection (line 74) and closes it (lines
111-112) only when nothing raised. -/
def profiling_geo_events (q : Except String (List CityRow)) : List DBEvent :=
  match validate_geographic_distribution q with
  | Except.ok _ =>
      [DBEvent.openConn, DBEvent.query "geographic_distribution",
       DBEvent.closeConn]
  | Except.error _ => [DBEvent.openConn, DBEvent.query "geographic_distribution"]

/-- Database actions of one run of `validate_customer_profiling.py`:
`compare_with_frontend` calls the two metric functions in turn, each opening
its own connection; an error raised in the first one skips the second.  A
failed connect establishes no connection. -/
def profiling_main_events (connOk : Bool)
    (q1 : Except String CustomerMetricsRow)
    (q2 : Except String (List CityRow)) : List DBEvent :=
  if connOk then
    match validate_customer_profiling q1 with
    | Except.error _ => profiling_customer_events q1
    | Except.ok _ => profiling_customer_events q1 ++ profiling_geo_events q2
  else []

/-- `validate_metrics.py` line 135:
`similarity_score = min(avg_shared / 10.0, 1.0) if avg_shared > 0 else 0.0`. -/
def similarity_score (avg_shared : ℚ) : ℚ :=
  if 0 < avg_shared then min (avg_shared / 10) 1 else 0

/-- `validate_metrics.py` line 136: `max_possible_pairs =
float((total_users * (total_users - 1)) / 2) if total_users > 1 else 1.0`. -/
def max_possible_pairs (total_users : Nat) : ℚ :=
  if 1 < total_users then ((total_users : ℚ) * ((total_users : ℚ) - 1)) / 2
  else 1

/-- `validate_metrics.py` line 137: `recommendation_coverage =
min(float(active_pairs) / max_possible_pairs, 1.0) if max_possible_pairs > 0
else 0.0`. -/
def recommendation_coverage (active_pairs total_users : Nat) : ℚ :=
  if 0 < max_possible_pairs total_users then
    min ((active_pairs : ℚ) / max_possible_pairs total_users) 1
  else 0

/-- Row fetched by the collaborative-metrics query of `validate_metrics.py`
(lines 69-115), after the `int(... or 0)` / `float(... or 0)` coercions of
lines 119-124. -/
structure CollabRaw where
  total_users : Nat
  total_products : Nat
  total_purchases : Nat
  total_combinations : Nat
  active_pairs : Nat
  avg_shared : ℚ
deriving DecidableEq

/-- The dict returned by `validate_collaborative_metrics`
(`validate_metrics.py` lines 143-152). -/
structure CollabMetrics where
  total_users : Nat
  total_products : Nat
  total_purchases : Nat
  total_recommendations : Nat
  active_customer_pairs : Nat
  avg_similarity_score : ℚ
  algorithm_accuracy : ℚ
  coverage : ℚ
deriving DecidableEq

/-- `validate_collaborative_metrics` (`validate_metrics.py` lines 59-161):
the query runs inside `try/except`; a raised error is caught at this call
site and the function returns `None` (line 159), as does an empty fetch
(lines 153-155). -/
def validate_collaborative_metrics (q : Except String (Option CollabRaw)) :
    Option CollabMetrics :=
  match q with
  | Except.error _ => none
  | Except.ok none => none
  | Except.ok (some r) =>
      some { total_users := r.total_users,
             total_products := r.total_products,
             total_purchases := r.total_purchases,
             total_recommendations := r.total_combinations,
             active_customer_pairs := r.active_pairs,
             avg_similarity_score := similarity_score r.avg_shared,
             algorithm_accuracy :=
               recommendation_coverage r.active_pairs r.total_users,
             coverage := recommendation_coverage r.active_pairs r.total_users }

/-- `validate_high_value_pairs` (`validate_metrics.py` lines 163-212):
`high_value_pairs = result[0] if result else 0`; a raised query error is
caught at this call site and the function returns 0 (line 210). -/
def validate_high_value_pairs (q : Except String (Option Nat)) : Nat :=
  match q with
  | Except.error _ => 0
  | Except.ok none => 0
  | Except.ok (some n) => n

/-- `validate_cross_region_products` (`validate_metrics.py` lines 214-268):
same shape as `validate_high_value_pairs`, returning 0 on a caught query
error (line 266). -/
def validate_cross_region_products (q : Except String (Option Nat)) : Nat :=
  match q with
  | Except.error _ => 0
  | Except.ok none => 0
  | Except.ok (some n) => n

/-- `validate_database_structure` (`validate_metrics.py` lines 32-57): one
`SELECT COUNT(*)` per required table (six of them, modelled as the outcome
list in table order), each inside its own `try/except`; a failing table is
recorded as `-1` and the loop continues with the next table. -/
def validate_database_structure (qTables : List (Except String Nat)) :
    List Int :=
  qTables.map (fun q =>
    match q with
    | Except.ok n => (n : Int)
    | Except.error _ => -1)

/-- What one run of `validate_metrics.py`'s `main` computes and reports
(lines 270-337): `none` when `get_db_connection` returned `None`. -/
structure MetricsRunReport where
  table_status : List Int
  collab : Option CollabMetrics
  high_value_pairs : Nat
  cross_region : Nat
  success : Bool
deriving DecidableEq

/-- `main` of `validate_metrics.py` (lines 270-337): aborts before any metric
when the connection failed (lines 277-280), otherwise runs each validator in
turn — their per-call-site catches make them total — and returns `True`. -/
def metrics_main (connOk : Bool) (qTables : List (Except String Nat))
    (qc : Except String (Option CollabRaw)) (qh qr : Except String (Option Nat)) :
    Option MetricsRunReport :=
  if connOk then
    some { table_status := validate_database_structure qTables,
           collab := validate_collaborative_metrics qc,
           high_value_pairs := validate_high_value_pairs qh,
           cross_region := validate_cross_region_products qr,
           success := true }
  else none

/-- `validate_metrics.py` lines 339-341: `sys.exit(0 if success else 1)`. -/
def metrics_exit_code (connOk : Bool) (qTables : List (Except String Nat))
    (qc : Except String (Option CollabRaw)) (qh qr : Except String (Option Nat)) :
    Nat :=
  match metrics_main connOk qTables qc qh qr with
  | some rep => if rep.success then 0 else 1
  | none => 1

/-- Database actions of one run of `validate_metrics.py`: a single connection
opened by `main` (line 277), one count query per required table, the three
metric queries, then `conn.close()` in `main`'s `finally` (line 337).  Each
metric's local `try/except` means every query of the sequence runs regardless
of earlier failures. -/
def metrics_main_events (connOk : Bool) (qTables : List (Except String Nat))
    (_qc : Except String (Option CollabRaw))
    (_qh _qr : Except String (Option Nat)) :
    List DBEvent :=
  if connOk then
    ([DBEvent.openConn] ++
     qTables.map (fun _ => DBEvent.query "table_count") ++
     [DBEvent.query "collaborative_metrics",
      DBEvent.query "high_value_pairs",
      DBEvent.query "cross_region_products"]) ++ [DBEvent.closeConn]
  else []

/-- The `customer_products` CTE of the collaborative query
(`validate_metrics.py` lines 70-79), abstracted to its grouping keys: the set
of (customer, product) rows with at least one purchase in the window. -/
def sharedProducts (R : List (Nat × Nat)) (c1 c2 : Nat) : Nat :=
  ((R.map Prod.snd).dedup.filter
    (fun p => decide ((c1, p) ∈ R) && decide ((c2, p) ∈ R))).length

/-- The distinct customers of the `customer_products` rows. -/
def customersOf (R : List (Nat × Nat)) : List Nat :=
  (R.map Prod.fst).dedup

/-- The `customer_pairs` CTE (`validate_metrics.py` lines 80-91): the
self-join on a shared product with `cp1.unified_customer_id <
cp2.unified_customer_id`, grouped by the customer pair with
`COUNT(DISTINCT cp1.product_id)` shared products, kept under
`HAVING COUNT(DISTINCT cp1.product_id) >= 2`.  Enumerated as the set of
ordered customer pairs `(c1, c2)` with `c1 < c2` whose distinct shared
product count is at least 2 (the `HAVING >= 2` subsumes the join's
at-least-one-shared-product condition), each carrying that count. -/
def customer_pairs (R : List (Nat × Nat)) : List (Nat × Nat × Nat) :=
  ((customersOf R).product (customersOf R)).filterMap (fun q =>
    if q.1 < q.2 ∧ 2 ≤ sharedProducts R q.1 q.2 then
      some (q.1, q.2, sharedProducts R q.1 q.2)
    else none)

/-- Unfolding membership in `customer_pairs`: each member is an ordered pair
with its shared-product count, kept only above the threshold. -/
theorem mem_customer_pairs {R : List (Nat × Nat)} {a b s : Nat}
    (h : (a, b, s) ∈ customer_pairs R) :
    a < b ∧ 2 ≤ s ∧ s = sharedProducts R a b := by
  rw [customer_pairs, List.mem_filterMap] at h
  obtain ⟨q, _, hq⟩ := h
  by_cases hc : q.1 < q.2 ∧ 2 ≤ sharedProducts R q.1 q.2
  · rw [if_pos hc] at hq
    simp only [Option.some.injEq, Prod.mk.injEq] at hq
    obtain ⟨rfl, rfl, rfl⟩ := hq
    exact ⟨hc.1, hc.2, rfl⟩
  · rw [if_neg hc] at hq
    exact absurd hq (by simp)

/-- The sentinel makes `max_possible_pairs` positive for every user count. -/
theorem max_possible_pairs_pos (u : Nat) : 0 < max_possible_pairs u := by
  rw [max_possible_pairs]
  split_ifs with h
  · have h2 : (2 : ℚ) ≤ (u : ℚ) := by exact_mod_cast h
    have h1 : (0 : ℚ) < (u : ℚ) := by linarith
    have h3 : (0 : ℚ) < (u : ℚ) - 1 := by linarith
    exact div_pos (mul_pos h1 h3) (by norm_num)
  · norm_num

/-- With a nonzero divisor, the percentage loop raises nothing and yields the
percentage of each row in order. -/
theorem cityPercentagesAux_ok (total : Nat) (hT : (total : ℚ) ≠ 0)
    (l : List CityRow) :
    cityPercentagesAux total l =
      Except.ok (l.map (fun r => (r.customer_count : ℚ) / (total : ℚ) * 100)) := by
  induction l with
  | nil => rfl
  | cons a t ih => simp [cityPercentagesAux, pyDiv, hT, ih]

/-- Casting the customer total of a city list into `ℚ`. -/
theorem topTotal_cast (l : List CityRow) :
    (l.map (fun r => (r.customer_count : ℚ))).sum = (topTotalCustomers l : ℚ) := by
  rw [topTotalCustomers]
  induction l with
  | nil => simp
  | cons a t ih => simp [ih]

/-- Summing the per-row percentages factors out the common divisor. -/
theorem sum_map_div_mul (T : ℚ) (l : List CityRow) :
    (l.map (fun r => (r.customer_count : ℚ) / T * 100)).sum =
      (l.map (fun r => (r.customer_count : ℚ))).sum / T * 100 := by
  induction l with
  | nil => simp
  | cons a t ih => simp [ih, add_div, add_mul]

/-- Query events contain no connection open. -/
theorem filter_isOpenEvent_query (name : String) {α : Type} (l : List α) :
    (l.map (fun _ => DBEvent.query name)).filter isOpenEvent = [] := by
  induction l with
  | nil => rfl
  | cons a t ih => simp [isOpenEvent, ih]

/-- Query events contain no connection close. -/
theorem filter_isCloseEvent_query (name : String) {α : Type} (l : List α) :
    (l.map (fun _ => DBEvent.query name)).filter isCloseEvent = [] := by
  induction l with
  | nil => rfl
  | cons a t ih => simp [isCloseEvent, ih]

/-- The run of `validate_customer_profiling.py` opens one connection when its
first metric function raises, two otherwise. -/
theorem profiling_opens_count (q1 : Except String CustomerMetricsRow)
    (q2 : Except String (List CityRow)) :
    countOpens (profiling_main_events true q1 q2) =
      (if exOk (validate_customer_profiling q1) then 2 else 1) := by
  cases hq : validate_customer_profiling q1 with
  | error e =>
      simp [profiling_main_events, profiling_customer_events, hq, exOk,
            countOpens, isOpenEvent, List.filter_cons]
  | ok v =>
      cases hg : validate_geographic_distribution q2 with
      | error e2 =>
          simp [profiling_main_events, profiling_customer_events,
                profiling_geo_events, hq, hg, exOk, countOpens, isOpenEvent,
                List.filter_append, List.filter_cons]
      | ok c =>
          simp [profiling_main_events, profiling_customer_events,
                profiling_geo_events, hq, hg, exOk, countOpens, isOpenEvent,
                List.filter_append, List.filter_cons]

/-- C1: the spec's orders-per-customer contract fails on the zero-orders
input: with total_orders = 0 and total_customers = 0, the unguarded division
of `validate_customer_profiling.py` line 56 raises `ZeroDivisionError`
instead of yielding 0. -/
theorem profiling_orders_per_customer_divzero :
    validate_customer_profiling
      (Except.ok { total_orders := 0, total_customers := 0,
                   total_revenue := 0, avg_order_value := 0 }) =
      Except.error "ZeroDivisionError" := by
  simp [validate_customer_profiling, pyDiv]

/-- C2 counterexample: a query error inside `validate_customer_profiling` is
not caught at that call site — it propagates out of `compare_with_frontend`,
so the geographic metric of the same run is never computed. -/
theorem profiling_query_error_propagates :
    compare_with_frontend (Except.error "relation orders does not exist")
      (Except.ok [{ city := "Karachi", customer_count := 5, orders := 7,
                    revenue := 900 }]) =
      Except.error "relation orders does not exist" := rfl

/-- C2 (amended): every per-metric operation of `validate_metrics.py`
catches its query error at its call site and the run's remaining metrics are
still computed and reported: a failing collaborative-metrics query yields
`None`, failing high-value-pairs and cross-region queries yield 0, and a
failing table count is recorded as the sentinel `-1` with the table loop
continuing.  The metric functions of `validate_customer_profiling.py` have
no call-site catch: a query error propagates out of them to `main`'s
top-level handler, so a failing customer-metrics query aborts the
geographic metric of the same run. -/
theorem per_metric_error_isolation (e : String)
    (qTables : List (Except String Nat)) (qh qr : Except String (Option Nat))
    (q2 : Except String (List CityRow)) :
    validate_collaborative_metrics (Except.error e) = none ∧
    validate_high_value_pairs (Except.error e) = 0 ∧
    validate_cross_region_products (Except.error e) = 0 ∧
    validate_database_structure (Except.error e :: qTables) =
      -1 :: validate_database_structure qTables ∧
    metrics_main true qTables (Except.error e) qh qr =
      some { table_status := validate_database_structure qTables,
             collab := none,
             high_value_pairs := validate_high_value_pairs qh,
             cross_region := validate_cross_region_products qr,
             success := true } ∧
    validate_customer_profiling (Except.error e) = Except.error e ∧
    compare_with_frontend (Except.error e) q2 = Except.error e :=
  ⟨rfl, rfl, rfl, rfl, rfl, rfl, rfl⟩

/-- C3 counterexample: a database connection failure in
`validate_customer_profiling.py` still exits with status 0 — `main` catches
every failure and the `if __name__` block calls it without `sys.exit`. -/
theorem profiling_conn_failure_exits_zero :
    profiling_exit_code false (Except.error "connection refused")
      (Except.error "connection refused") = 0 := rfl

/-- C3 (amended): `validate_metrics.py` exits 0 exactly on a successful run
and 1 when the connection fails; `validate_customer_profiling.py` exits 0 on
every path, connection failure included. -/
theorem exit_status_discipline (connOk : Bool)
    (qTables : List (Except String Nat)) (qc : Except String (Option CollabRaw))
    (qh qr : Except String (Option Nat))
    (q1 : Except String CustomerMetricsRow) (q2 : Except String (List CityRow)) :
    metrics_exit_code connOk qTables qc qh qr = (if connOk then 0 else 1) ∧
    profiling_exit_code connOk q1 q2 = 0 := by
  constructor
  · cases connOk <;> rfl
  · cases connOk with
    | false => rfl
    | true =>
        cases hc : compare_with_frontend q1 q2 <;>
          simp [profiling_exit_code, hc]

/-- C4: the active customer-pair relation is irreflexive, contains no
reversed duplicate, and every retained pair shares at least two distinct
products. -/
theorem customer_pairs_irreflexive_unique (R : List (Nat × Nat)) :
    (∀ a s, (a, a, s) ∉ customer_pairs R) ∧
    (∀ a b s t, (a, b, s) ∈ customer_pairs R → (b, a, t) ∉ customer_pairs R) ∧
    (∀ a b s, (a, b, s) ∈ customer_pairs R →
      2 ≤ sharedProducts R a b ∧ s = sharedProducts R a b) := by
  refine ⟨?_, ?_, ?_⟩
  · intro a s h
    exact absurd (mem_customer_pairs h).1 (lt_irrefl a)
  · intro a b s t h1 h2
    exact absurd ((mem_customer_pairs h1).1.trans (mem_customer_pairs h2).1)
      (lt_irrefl a)
  · intro a b s h
    obtain ⟨_, h2, h3⟩ := mem_customer_pairs h
    exact ⟨h3 ▸ h2, h3⟩

/-- C4 witness on four purchase rows: customers 1 and 2 share the two
products 10 and 11, the pair (1, 2) is active, and no self-pair appears. -/
theorem customer_pairs_irreflexive_unique_witness :
    (1, 1, 2) ∉ customer_pairs [(1, 10), (1, 11), (2, 10), (2, 11)] ∧
    (2 ≤ sharedProducts [(1, 10), (1, 11), (2, 10), (2, 11)] 1 2 ∧
      2 = sharedProducts [(1, 10), (1, 11), (2, 10), (2, 11)] 1 2) :=
  ⟨(customer_pairs_irreflexive_unique [(1, 10), (1, 11), (2, 10), (2, 11)]).1 1 2,
   (customer_pairs_irreflexive_unique [(1, 10), (1, 11), (2, 10), (2, 11)]).2.2
     1 2 2 (by decide)⟩

/-- C5: when the returned top-10 set has a positive customer total, every
city's percentage is its customer count over that set's total times 100, and
the percentages sum to exactly 100. -/
theorem city_percentages_sum_100 (rows : List CityRow)
    (h : 0 < topTotalCustomers rows) :
    cityPercentages rows =
      Except.ok (rows.map (fun r =>
        (r.customer_count : ℚ) / (topTotalCustomers rows : ℚ) * 100)) ∧
    (rows.map (fun r =>
        (r.customer_count : ℚ) / (topTotalCustomers rows : ℚ) * 100)).sum = 100 := by
  have hT : ((topTotalCustomers rows : ℚ)) ≠ 0 := by
    exact_mod_cast Nat.pos_iff_ne_zero.mp h
  constructor
  · exact cityPercentagesAux_ok _ hT rows
  · rw [sum_map_div_mul, topTotal_cast, div_self hT, one_mul]

/-- C5 witness on a concrete two-city result set with customer total 4. -/
theorem city_percentages_sum_100_witness :
    (([{ city := "Lahore", customer_count := 3, orders := 5, revenue := 100 },
       { city := "Karachi", customer_count := 1, orders := 2, revenue := 50 }] :
      List CityRow).map
      (fun r => (r.customer_count : ℚ) /
        (topTotalCustomers
          ([{ city := "Lahore", customer_count := 3, orders := 5, revenue := 100 },
            { city := "Karachi", customer_count := 1, orders := 2, revenue := 50 }] :
           List CityRow) : ℚ)
        * 100)).sum = 100 :=
  (city_percentages_sum_100
    [{ city := "Lahore", customer_count := 3, orders := 5, revenue := 100 },
     { city := "Karachi", customer_count := 1, orders := 2, revenue := 50 }]
    (by decide)).2

/-- C6: for a nonnegative average shared-product count and any counts, the
derived similarity score and recommendation coverage lie in [0, 1]. -/
theorem similarity_and_coverage_in_unit_interval (avg_shared : ℚ)
    (h : 0 ≤ avg_shared) (active_pairs total_users : Nat) :
    0 ≤ similarity_score avg_shared ∧ similarity_score avg_shared ≤ 1 ∧
    0 ≤ recommendation_coverage active_pairs total_users ∧
    recommendation_coverage active_pairs total_users ≤ 1 := by
  refine ⟨?_, ?_, ?_, ?_⟩
  · rw [similarity_score]
    split_ifs with hp
    · exact le_min (div_nonneg h (by norm_num)) zero_le_one
    · exact le_refl 0
  · rw [similarity_score]
    split_ifs with hp
    · exact min_le_right _ _
    · exact zero_le_one
  · rw [recommendation_coverage, if_pos (max_possible_pairs_pos total_users)]
    exact le_min
      (div_nonneg (Nat.cast_nonneg active_pairs)
        (max_possible_pairs_pos total_users).le)
      zero_le_one
  · rw [recommendation_coverage, if_pos (max_possible_pairs_pos total_users)]
    exact min_le_right _ _

/-- C6 witness at average 5, 3 active pairs, 4 users. -/
theorem similarity_and_coverage_in_unit_interval_witness :
    0 ≤ similarity_score 5 ∧ similarity_score 5 ≤ 1 ∧
    0 ≤ recommendation_coverage 3 4 ∧ recommendation_coverage 3 4 ≤ 1 :=
  similarity_and_coverage_in_unit_interval 5 (by norm_num) 3 4

/-- C7: `avg_lifetime_value` equals total revenue over total customers when
there is at least one customer, and 0 when there are none. -/
theorem avg_lifetime_value_contract (total_revenue : ℚ) (total_customers : Nat) :
    (0 < total_customers →
      avg_lifetime_value total_revenue total_customers =
        total_revenue / (total_customers : ℚ)) ∧
    (total_customers = 0 →
      avg_lifetime_value total_revenue total_customers = 0) := by
  constructor
  · intro h
    rw [avg_lifetime_value, if_pos h]
  · intro h
    subst h
    rfl

/-- C7 witness at revenue 600, customers 2: lifetime value 300. -/
theorem avg_lifetime_value_contract_witness :
    avg_lifetime_value 600 2 = 600 / ((2 : Nat) : ℚ) :=
  (avg_lifetime_value_contract 600 2).1 (by norm_num)

/-- C8: `max_possible_pairs` follows the formula above one user, is the
sentinel 1 at zero or one users, is always positive, and consequently the
coverage computation never takes its divide-by-zero guard's else-branch. -/
theorem max_possible_pairs_contract (total_users : Nat) :
    (1 < total_users →
      max_possible_pairs total_users =
        ((total_users : ℚ) * ((total_users : ℚ) - 1)) / 2) ∧
    (total_users ≤ 1 → max_possible_pairs total_users = 1) ∧
    0 < max_possible_pairs total_users ∧
    (∀ active_pairs : Nat,
      recommendation_coverage active_pairs total_users =
        min ((active_pairs : ℚ) / max_possible_pairs total_users) 1) := by
  refine ⟨?_, ?_, max_possible_pairs_pos total_users, ?_⟩
  · intro h
    rw [max_possible_pairs, if_pos h]
  · intro h
    rw [max_possible_pairs, if_neg (by omega)]
  · intro ap
    rw [recommendation_coverage, if_pos (max_possible_pairs_pos total_users)]

/-- C8 witness at 3 users: the formula value and positivity. -/
theorem max_possible_pairs_contract_witness :
    max_possible_pairs 3 = (((3 : Nat) : ℚ) * (((3 : Nat) : ℚ) - 1)) / 2 ∧
    0 < max_possible_pairs 3 :=
  ⟨(max_possible_pairs_contract 3).1 (by norm_num),
   (max_possible_pairs_contract 3).2.2.1⟩

/-- C9 counterexample: a fully successful run of
`validate_customer_profiling.py` opens two database connections, not one —
one inside each of its two metric functions. -/
theorem profiling_opens_two_connections :
    countOpens (profiling_main_events true
      (Except.ok { total_orders := 3, total_customers := 2, total_revenue := 600,
                   avg_order_value := 200 })
      (Except.ok [{ city := "Lahore", customer_count := 2, orders := 3,
                    revenue := 600 }])) = 2 := rfl

/-- C9 (amended): one run of `validate_metrics.py` opens exactly one
connection, starting the trace, closes exactly once, with the close as the
run's last action; one run of `validate_customer_profiling.py` opens a
connection per metric function — two in total whenever the first metric
function completes, one when it raises. -/
theorem connection_discipline (qTables : List (Except String Nat))
    (qc : Except String (Option CollabRaw)) (qh qr : Except String (Option Nat))
    (q1 : Except String CustomerMetricsRow) (q2 : Except String (List CityRow)) :
    countOpens (metrics_main_events true qTables qc qh qr) = 1 ∧
    countCloses (metrics_main_events true qTables qc qh qr) = 1 ∧
    (metrics_main_events true qTables qc qh qr).head? = some DBEvent.openConn ∧
    (metrics_main_events true qTables qc qh qr).getLast? =
      some DBEvent.closeConn ∧
    countOpens (profiling_main_events true q1 q2) =
      (if exOk (validate_customer_profiling q1) then 2 else 1) := by
  refine ⟨?_, ?_, ?_, ?_, profiling_opens_count q1 q2⟩
  · simp [metrics_main_events, countOpens, List.filter_append,
          filter_isOpenEvent_query, isOpenEvent, List.filter_cons]
  · simp [metrics_main_events, countCloses, List.filter_append,
          filter_isCloseEvent_query, isCloseEvent, List.filter_cons]
  · simp [metrics_main_events]
  · rw [metrics_main_events, if_pos rfl]
    exact List.getLast?_concat _

/-- C10: on the zero-row geographic query the function returns the empty
list without raising — the top-10 customer total is 0, but the percentage
division only runs inside the loop over returned rows, so that zero is never
used as a divisor. -/
theorem geographic_empty_result_safe :
    validate_geographic_distribution (Except.ok []) = Except.ok [] ∧
    topTotalCustomers [] = 0 ∧
    cityPercentages [] = Except.ok [] :=
  ⟨rfl, rfl, rfl⟩

end RecommenderDashboard
